import Mathlib

/-!
Verification of the GreenOS greenhouse firmware against its specification.

The definitions below are a shallow embedding of the firmware sources:
- `Firmware/src/main/anomaly_detection.h` (ActuatorManager implementation),
- `Firmware/src/sensor_manager.cpp` (sensor health tracking),
- `Firmware/src/main/main.ino` (state machine and offline buffering).

Conventions of the embedding:
- `millis()` values are natural numbers; the C++ `unsigned long` subtraction
  `now - last` (32-bit wraparound on this platform) is modelled by `wsub`.
- Sequential actuator calls that the firmware issues back-to-back inside one
  function body (microseconds to at most one second apart, far below the
  60000 ms minimum-dwell threshold) are modelled with the same `now` value;
  every dwell-guard comparison has the same outcome as in the firmware
  because the elapsed time between such calls is always below the threshold.
- `Serial` printing and `digitalWrite` pin writes carry no state that feeds
  back into the control logic and are omitted; the tracked relay state in
  the `ActuatorState` struct is the authoritative model, exactly as in the
  source, which mirrors every pin write into that struct.
-/

/-- 2^32, the modulus of `unsigned long` arithmetic on the target platform. -/
def UINT32_MOD : Nat := 4294967296

/-- C++ unsigned 32-bit subtraction `a - b` (wraparound), as used in every
`millis()` age computation of the firmware. -/
def wsub (a b : Nat) : Nat := (a % UINT32_MOD + (UINT32_MOD - b % UINT32_MOD)) % UINT32_MOD

/-- `#define MIN_CYCLE_TIME_MS 60000` (anomaly_detection.h line 92). -/
def MIN_CYCLE_TIME_MS : Nat := 60000

/-- `#define MAX_PUMP_RUN_TIME_MS 600000` (anomaly_detection.h line 94). -/
def MAX_PUMP_RUN_TIME_MS : Nat := 600000

/-- `struct ActuatorState` (anomaly_detection.h lines 72-87). -/
structure ActuatorState where
  heaterPrimary : Bool
  heaterSecondary : Bool
  fanExhaust : Bool
  fanCirculation : Bool
  pumpIrrigation : Bool
  lightGrow : Bool
  heaterOnTime : Nat
  fanOnTime : Nat
  pumpOnTime : Nat
  lastHeaterChange : Nat
  lastFanChange : Nat
  lastPumpChange : Nat
deriving DecidableEq, Repr

/-- `ActuatorManager::ActuatorManager()` (anomaly_detection.h lines 100-115):
all actuators off, all timers zero. -/
def initialActuatorState : ActuatorState :=
  { heaterPrimary := false, heaterSecondary := false, fanExhaust := false,
    fanCirculation := false, pumpIrrigation := false, lightGrow := false,
    heaterOnTime := 0, fanOnTime := 0, pumpOnTime := 0,
    lastHeaterChange := 0, lastFanChange := 0, lastPumpChange := 0 }

/-- `ActuatorManager::setHeater(bool primary, bool turnOn)`
(anomaly_detection.h lines 149-181). The source writes
`if (*stateVar != turnOn) change`; here the equal case returns `s` first and
the change branch follows, which is the same function. -/
def setHeater (s : ActuatorState) (primary turnOn : Bool) (now : Nat) : ActuatorState :=
  if wsub now s.lastHeaterChange < MIN_CYCLE_TIME_MS then s
  else if turnOn = true ∧ s.fanExhaust = true then s
  else if primary = true then
    if s.heaterPrimary = turnOn then s
    else
      let s1 : ActuatorState := { s with heaterPrimary := turnOn, lastHeaterChange := now }
      if turnOn = true then { s1 with heaterOnTime := now } else s1
  else
    if s.heaterSecondary = turnOn then s
    else
      let s1 : ActuatorState := { s with heaterSecondary := turnOn, lastHeaterChange := now }
      if turnOn = true then { s1 with heaterOnTime := now } else s1

/-- `ActuatorManager::setFan(bool exhaust, bool turnOn)`
(anomaly_detection.h lines 183-217). When turning the exhaust fan on while a
heater is running, the source first calls `setHeater(true,false)` and
`setHeater(false,false)` (the interlock), then `delay(1000)`, then switches
the fan using the `now` captured at entry. -/
def setFan (s : ActuatorState) (exhaust turnOn : Bool) (now : Nat) : ActuatorState :=
  if wsub now s.lastFanChange < MIN_CYCLE_TIME_MS then s
  else
    let s0 := if exhaust = true ∧ turnOn = true ∧ (s.heaterPrimary = true ∨ s.heaterSecondary = true)
              then setHeater (setHeater s true false now) false false now
              else s
    if exhaust = true then
      if s0.fanExhaust = turnOn then s0
      else
        let s1 : ActuatorState := { s0 with fanExhaust := turnOn, lastFanChange := now }
        if turnOn = true then { s1 with fanOnTime := now } else s1
    else
      if s0.fanCirculation = turnOn then s0
      else
        let s1 : ActuatorState := { s0 with fanCirculation := turnOn, lastFanChange := now }
        if turnOn = true then { s1 with fanOnTime := now } else s1

/-- `ActuatorManager::setPump(bool turnOn)` (anomaly_detection.h lines
219-249). `t2` is the possibly forced-off request after the maximum
continuous run-time check (`runTime > MAX_PUMP_RUN_TIME_MS`). -/
def setPump (s : ActuatorState) (turnOn : Bool) (now : Nat) : ActuatorState :=
  if wsub now s.lastPumpChange < MIN_CYCLE_TIME_MS then s
  else
    let t2 := if turnOn = true ∧ s.pumpIrrigation = true ∧
                 MAX_PUMP_RUN_TIME_MS < wsub now s.pumpOnTime
              then false else turnOn
    if s.pumpIrrigation = t2 then s
    else
      let s1 : ActuatorState := { s with pumpIrrigation := t2, lastPumpChange := now }
      if t2 = true then { s1 with pumpOnTime := now } else s1

/-- `ActuatorManager::setLight(bool turnOn)` (anomaly_detection.h lines
251-258): no dwell-time check, no timer update. -/
def setLight (s : ActuatorState) (turnOn : Bool) : ActuatorState :=
  if s.lightGrow = turnOn then s else { s with lightGrow := turnOn }

/-- `enum EmergencyType` (actuator_manager.h). -/
inductive EmergencyType where
  | LOW_TEMP
  | HIGH_TEMP
  | SECURITY_BREACH
  | WATER_LEAK
  | POWER_FAILURE
deriving DecidableEq, Repr

/-- `ActuatorManager::emergencyLowTemperature()` (anomaly_detection.h lines
294-306): exhaust fan off, primary heater on, secondary heater on,
circulation fan on, in that order. -/
def emergencyLowTemperature (s : ActuatorState) (now : Nat) : ActuatorState :=
  setFan (setHeater (setHeater (setFan s true false now) true true now) false true now) false true now

/-- `ActuatorManager::emergencyHighTemperature()` (anomaly_detection.h lines
308-321). -/
def emergencyHighTemperature (s : ActuatorState) (now : Nat) : ActuatorState :=
  setLight (setFan (setFan (setHeater (setHeater s true false now) false false now) true true now) false true now) false

/-- `ActuatorManager::emergencySecurityBreach()` (anomaly_detection.h lines
323-339): lights on (the buzzer has no actuator state). -/
def emergencySecurityBreach (s : ActuatorState) : ActuatorState :=
  setLight s true

/-- `ActuatorManager::emergencyWaterLeak()` (anomaly_detection.h lines
341-348). -/
def emergencyWaterLeak (s : ActuatorState) (now : Nat) : ActuatorState :=
  setPump s false now

/-- `ActuatorManager::emergencyPowerFailure()` (anomaly_detection.h lines
350-360). -/
def emergencyPowerFailure (s : ActuatorState) (now : Nat) : ActuatorState :=
  setFan (setLight (setHeater (setHeater s true false now) false false now) false) false true now

/-- `ActuatorManager::handleEmergency(EmergencyType type)`
(anomaly_detection.h lines 264-292). -/
def handleEmergency (s : ActuatorState) (t : EmergencyType) (now : Nat) : ActuatorState :=
  match t with
  | EmergencyType.LOW_TEMP => emergencyLowTemperature s now
  | EmergencyType.HIGH_TEMP => emergencyHighTemperature s now
  | EmergencyType.SECURITY_BREACH => emergencySecurityBreach s
  | EmergencyType.WATER_LEAK => emergencyWaterLeak s now
  | EmergencyType.POWER_FAILURE => emergencyPowerFailure s now

/-- `ActuatorManager::stopAll()` (anomaly_detection.h lines 402-413): both
heaters, both fans, pump and light off, through the ordinary setters. -/
def stopAll (s : ActuatorState) (now : Nat) : ActuatorState :=
  setLight (setPump (setFan (setFan (setHeater (setHeater s true false now) false false now) true false now) false false now) false now) false

/-- `struct SensorHealth` (sensor_manager.cpp lines 34-41).
`consecutiveErrors` is a `uint8_t`, so it wraps modulo 256. -/
structure SensorHealth where
  isValid : Bool
  lastValidRead : Nat
  lastValidValue : ℚ
  consecutiveErrors : Nat
  totalReads : Nat
  totalErrors : Nat
deriving DecidableEq, Repr

/-- The hardware-facing inputs of one `readSCD30()` attempt: whether
`scd30.dataReady()` and `scd30.read()` succeeded and the raw values the
driver reported. -/
structure SCD30Input where
  dataReady : Bool
  readOk : Bool
  co2 : ℚ
  temperature : ℚ
  humidity : ℚ
deriving DecidableEq, Repr

/-- The sanity-check condition of `readSCD30()` (sensor_manager.cpp lines
201-212): driver success and all three readings in range. -/
def scd30ReadValid (inp : SCD30Input) : Prop :=
  inp.dataReady = true ∧ inp.readOk = true ∧
  (300 ≤ inp.co2 ∧ inp.co2 ≤ 5000) ∧
  (-10 ≤ inp.temperature ∧ inp.temperature ≤ 50) ∧
  (0 ≤ inp.humidity ∧ inp.humidity ≤ 100)

instance (inp : SCD30Input) : Decidable (scd30ReadValid inp) := by
  unfold scd30ReadValid; infer_instance

/-- `SensorManager::readSCD30()` (sensor_manager.cpp lines 193-238), health
transition: `totalReads++`; skip when already invalid; on a valid read reset
`consecutiveErrors`; on failure count the error and drop `isValid` once the
threshold `maxErrors` (`MAX_SENSOR_ERRORS`, from the untracked config.h) is
exceeded. The `data.co2` fallback write does not feed back into health. -/
def readSCD30 (maxErrors : Nat) (h : SensorHealth) (inp : SCD30Input) (now : Nat) : SensorHealth :=
  let h0 := { h with totalReads := h.totalReads + 1 }
  if h0.isValid = false then h0
  else if scd30ReadValid inp then
    { h0 with lastValidRead := now, lastValidValue := inp.co2, consecutiveErrors := 0 }
  else
    let h1 := { h0 with consecutiveErrors := (h0.consecutiveErrors + 1) % 256,
                        totalErrors := h0.totalErrors + 1 }
    if maxErrors < h1.consecutiveErrors then { h1 with isValid := false } else h1

/-- The inputs of one `readMQ135()` attempt. The analog computation (ADC
voltage, divider compensation, the floating-point `pow` PPM curve and the
window checks of sensor_manager.cpp lines 258-283) is summarised by
`valueOk`: whether the computed PPM passed the sanity window; the health
transition depends only on that outcome. `preheatElapsed` is the outcome of
`millis() - mq135_startTime >= MQ135_PREHEAT_TIME_MS`. -/
structure MQ135Input where
  preheatElapsed : Bool
  valueOk : Bool
  ppm : ℚ
deriving DecidableEq, Repr

/-- `SensorManager::readMQ135()` (sensor_manager.cpp lines 244-295), health
transition together with the `mq135_preheated` flag. While not preheated the
read returns without touching errors; afterwards a valid value resets
`consecutiveErrors`, a failure counts and can drop `isValid` — note that no
branch of this function ever sets `isValid` to `true`. -/
def readMQ135 (maxErrors : Nat) (preheated : Bool) (h : SensorHealth) (inp : MQ135Input) (now : Nat) :
    Bool × SensorHealth :=
  let h0 := { h with totalReads := h.totalReads + 1 }
  if preheated = false ∧ inp.preheatElapsed = false then (false, h0)
  else if inp.valueOk = true then
    (true, { h0 with lastValidValue := inp.ppm, lastValidRead := now, consecutiveErrors := 0 })
  else
    let h1 := { h0 with consecutiveErrors := (h0.consecutiveErrors + 1) % 256,
                        totalErrors := h0.totalErrors + 1 }
    (true, if maxErrors < h1.consecutiveErrors then { h1 with isValid := false } else h1)

/-- The inputs of one `readModbusSensor()` attempt: whether the Modbus
transaction returned `ku8MBSuccess` and the seven raw 16-bit registers. -/
structure ModbusInput where
  success : Bool
  reg0 : Nat
  reg1 : Nat
  reg2 : Nat
  reg3 : Nat
  reg4 : Nat
  reg5 : Nat
  reg6 : Nat
deriving DecidableEq, Repr

/-- The parse-and-sanity-check condition of `readModbusSensor()`
(sensor_manager.cpp lines 311-332): transaction success and moisture,
soil temperature, EC and pH all in range after scaling. -/
def modbusReadValid (inp : ModbusInput) : Prop :=
  inp.success = true ∧
  (0 ≤ (inp.reg0 : ℚ) / 10 ∧ (inp.reg0 : ℚ) / 10 ≤ 100) ∧
  (-10 ≤ (inp.reg1 : ℚ) / 10 ∧ (inp.reg1 : ℚ) / 10 ≤ 60) ∧
  (0 ≤ (inp.reg2 : ℚ) / 1000 ∧ (inp.reg2 : ℚ) / 1000 ≤ 10) ∧
  (3 ≤ (inp.reg3 : ℚ) / 100 ∧ (inp.reg3 : ℚ) / 100 ≤ 10)

instance (inp : ModbusInput) : Decidable (modbusReadValid inp) := by
  unfold modbusReadValid; infer_instance

/-- `SensorManager::readModbusSensor()` (sensor_manager.cpp lines 301-361),
health transition. On a fully valid read the source executes
`modbusHealth.isValid = true` (line 345) in addition to resetting
`consecutiveErrors`; on failure it counts the error and drops `isValid`
past the threshold. -/
def readModbusSensor (maxErrors : Nat) (h : SensorHealth) (inp : ModbusInput) (now : Nat) : SensorHealth :=
  let h0 := { h with totalReads := h.totalReads + 1 }
  if modbusReadValid inp then
    { h0 with lastValidRead := now, lastValidValue := (inp.reg2 : ℚ) / 1000,
              consecutiveErrors := 0, isValid := true }
  else
    let h1 := { h0 with consecutiveErrors := (h0.consecutiveErrors + 1) % 256,
                        totalErrors := h0.totalErrors + 1 }
    if maxErrors < h1.consecutiveErrors then { h1 with isValid := false } else h1

/-- `enum SystemState` values used by the main FSM (main.ino). -/
inductive SystemState where
  | STATE_BOOT
  | STATE_SENSOR_INIT
  | STATE_NETWORK_CONNECT
  | STATE_FIREBASE_AUTH
  | STATE_NORMAL_OPERATION
  | STATE_SAFE_MODE
  | STATE_EMERGENCY
  | STATE_CALIBRATION_MODE
deriving DecidableEq, Repr

/-- `stateSensorInit()` (main.ino lines 161-191), as a transition on
`(bootFailCount, next state)` given the air temperature the freshly
initialised sensors reported. Success is `airTemp > -50 && airTemp < 60`;
on failure `bootFailCount++` (a `uint8_t`, hence mod 256) and the controller
enters safe mode once `bootFailCount > 3`, otherwise stays in
`STATE_SENSOR_INIT` to retry. -/
def stateSensorInit (bootFailCount : Nat) (airTemp : ℚ) : Nat × SystemState :=
  if -50 < airTemp ∧ airTemp < 60 then (bootFailCount, SystemState.STATE_NETWORK_CONNECT)
  else
    let c := (bootFailCount + 1) % 256
    if 3 < c then (c, SystemState.STATE_SAFE_MODE)
    else (c, SystemState.STATE_SENSOR_INIT)

/-- `k` consecutive loop iterations of the sensor-init state from a fresh
boot (`bootFailCount = 0`), each observing air temperature `t`; iteration
stops affecting the pair once the state leaves `STATE_SENSOR_INIT`. -/
def sensorInitIter (t : ℚ) : Nat → Nat × SystemState
  | 0 => (0, SystemState.STATE_SENSOR_INIT)
  | k + 1 =>
      let p := sensorInitIter t k
      if p.2 = SystemState.STATE_SENSOR_INIT then stateSensorInit p.1 t else p

/-- `struct SensorReading` (main.ino lines 58-66), the offline buffer
record. -/
structure SensorReading where
  timestamp : Nat
  airTemp : ℚ
  airHumidity : ℚ
  co2 : ℚ
  ph : ℚ
  ec : ℚ
  vwc : ℚ
deriving DecidableEq, Repr

/-- A numbered buffer record used in concrete scenarios. -/
def mkRec (i : Nat) : SensorReading :=
  { timestamp := i, airTemp := 0, airHumidity := 0, co2 := 0, ph := 0, ec := 0, vwc := 0 }

/-- `MAX_BUFFERED_READINGS` (config.h, untracked; Docs/HARDWARE_SETUP.md
line 493 records the value as 100). -/
def MAX_BUFFERED_READINGS : Nat := 100

/-- `bufferSensorData()` (main.ino lines 535-555) over a list model of
`offlineBuffer[0..bufferCount)`, parametric in the capacity `cap`. When the
SD card is unavailable and the buffer is full, the source shifts every
record left by one and sets `bufferCount = cap - 1` (drop the oldest); it
then appends the new record if a slot is free. -/
def bufferSensorData (cap : Nat) (sdCardAvailable : Bool) (buf : List SensorReading)
    (d : SensorReading) : List SensorReading :=
  let buf1 := if sdCardAvailable = false ∧ cap ≤ buf.length
              then (buf.drop 1).take (cap - 1) else buf
  if buf1.length < cap then buf1 ++ [d] else buf1

/-- `flushSDBuffer()` (main.ino lines 557-587) over `(ram, file)`: with the
SD card present and a nonempty RAM buffer, a successful `SD.open` appends
every RAM record to the buffer file and clears the RAM buffer
(`bufferCount = 0`); a failed open leaves both intact. -/
def flushSDBuffer (sdCardAvailable fileOpenOk : Bool) (ram file : List SensorReading) :
    List SensorReading × List SensorReading :=
  if sdCardAvailable = false ∨ ram.length = 0 then (ram, file)
  else if fileOpenOk = true then ([], file ++ ram)
  else (ram, file)

/-- `syncBufferedData()` (main.ino lines 589-615) over the buffer file,
returning the file contents afterwards and the list of records actually
delivered to Firebase. The source reads every line, counts it, performs no
upload (`TODO: Implement Firebase batch upload`, line 602) and then
unconditionally executes `SD.remove("/data/buffer.csv")` (line 610). -/
def syncBufferedData (sdCardAvailable : Bool) (file : Option (List SensorReading)) :
    Option (List SensorReading) × List SensorReading :=
  if sdCardAvailable = false then (file, [])
  else
    match file with
    | none => (none, [])
    | some _ => (none, [])

/-- Dwell guard of `setHeater`: inside the minimum cycle time the command is
ignored and the state is returned untouched. -/
theorem setHeater_noop_of_dwell (s : ActuatorState) (p t : Bool) (now : Nat)
    (h : wsub now s.lastHeaterChange < MIN_CYCLE_TIME_MS) : setHeater s p t now = s := by
  unfold setHeater
  rw [if_pos h]

/-- Dwell guard of `setFan`. -/
theorem setFan_noop_of_dwell (s : ActuatorState) (e t : Bool) (now : Nat)
    (h : wsub now s.lastFanChange < MIN_CYCLE_TIME_MS) : setFan s e t now = s := by
  unfold setFan
  rw [if_pos h]

/-- Dwell guard of `setPump`. -/
theorem setPump_noop_of_dwell (s : ActuatorState) (t : Bool) (now : Nat)
    (h : wsub now s.lastPumpChange < MIN_CYCLE_TIME_MS) : setPump s t now = s := by
  unfold setPump
  rw [if_pos h]

/-- `setHeater` never touches the pump fields. -/
theorem setHeater_pumpIrrigation (s : ActuatorState) (p t : Bool) (now : Nat) :
    (setHeater s p t now).pumpIrrigation = s.pumpIrrigation := by
  simp only [setHeater]
  split_ifs <;> rfl

theorem setHeater_pumpOnTime (s : ActuatorState) (p t : Bool) (now : Nat) :
    (setHeater s p t now).pumpOnTime = s.pumpOnTime := by
  simp only [setHeater]
  split_ifs <;> rfl

theorem setHeater_lastPumpChange (s : ActuatorState) (p t : Bool) (now : Nat) :
    (setHeater s p t now).lastPumpChange = s.lastPumpChange := by
  simp only [setHeater]
  split_ifs <;> rfl

/-- `setHeater` never touches the fan outputs or the fan dwell timer. -/
theorem setHeater_fanExhaust (s : ActuatorState) (p t : Bool) (now : Nat) :
    (setHeater s p t now).fanExhaust = s.fanExhaust := by
  simp only [setHeater]
  split_ifs <;> rfl

theorem setHeater_fanCirculation (s : ActuatorState) (p t : Bool) (now : Nat) :
    (setHeater s p t now).fanCirculation = s.fanCirculation := by
  simp only [setHeater]
  split_ifs <;> rfl

theorem setHeater_lastFanChange (s : ActuatorState) (p t : Bool) (now : Nat) :
    (setHeater s p t now).lastFanChange = s.lastFanChange := by
  simp only [setHeater]
  split_ifs <;> rfl

/-- `setFan` never touches the pump fields. -/
theorem setFan_pumpIrrigation (s : ActuatorState) (e t : Bool) (now : Nat) :
    (setFan s e t now).pumpIrrigation = s.pumpIrrigation := by
  simp only [setFan]
  split_ifs <;> simp [setHeater_pumpIrrigation]

theorem setFan_pumpOnTime (s : ActuatorState) (e t : Bool) (now : Nat) :
    (setFan s e t now).pumpOnTime = s.pumpOnTime := by
  simp only [setFan]
  split_ifs <;> simp [setHeater_pumpOnTime]

theorem setFan_lastPumpChange (s : ActuatorState) (e t : Bool) (now : Nat) :
    (setFan s e t now).lastPumpChange = s.lastPumpChange := by
  simp only [setFan]
  split_ifs <;> simp [setHeater_lastPumpChange]

/-- `setLight` never touches the pump fields. -/
theorem setLight_pumpIrrigation (s : ActuatorState) (t : Bool) :
    (setLight s t).pumpIrrigation = s.pumpIrrigation := by
  simp only [setLight]
  split_ifs <;> rfl

theorem setLight_pumpOnTime (s : ActuatorState) (t : Bool) :
    (setLight s t).pumpOnTime = s.pumpOnTime := by
  simp only [setLight]
  split_ifs <;> rfl

theorem setLight_lastPumpChange (s : ActuatorState) (t : Bool) :
    (setLight s t).lastPumpChange = s.lastPumpChange := by
  simp only [setLight]
  split_ifs <;> rfl

/-- The state left by issuing, from the all-off reset state: primary heater
on at t = 60000 ms, secondary heater on at t = 120000 ms (both legal, the
heater dwell time having elapsed each time), then `setFan(exhaust, on)` at
t = 180000 ms. The exhaust-fan interlock disables the primary heater, which
resets the shared heater dwell timer, so its immediately following
`setHeater(false, false)` call is ignored and the secondary heater stays on
while the exhaust fan turns on. -/
def c1Trace : ActuatorState :=
  setFan (setHeater (setHeater initialActuatorState true true 60000) false true 120000) true true 180000

/-- Claim C1: the specification states that the exhaust fan and either
heater are never simultaneously on at the end of any public setter call.
The code violates this: at the end of the `setFan` call of `c1Trace` the
exhaust fan and the secondary heater are both on. -/
theorem c1_exhaust_heater_interlock_violated :
    c1Trace.fanExhaust = true ∧ c1Trace.heaterSecondary = true := by decide

/-- Claim C2: the specification states that `handleEmergency(LOW_TEMP)`
ends with both heaters on, the exhaust fan off and the circulation fan on.
The code deviates: from the all-off reset state with all dwell timers
expired (t = 60000 ms), the primary heater transition resets the shared
heater dwell timer, so the `setHeater(false, true)` call for the secondary
heater is ignored and the secondary heater ends up off. -/
theorem c2_lowtemp_bundle_deviates :
    (handleEmergency initialActuatorState EmergencyType.LOW_TEMP 60000).heaterPrimary = true ∧
    (handleEmergency initialActuatorState EmergencyType.LOW_TEMP 60000).heaterSecondary = false ∧
    (handleEmergency initialActuatorState EmergencyType.LOW_TEMP 60000).fanExhaust = false ∧
    (handleEmergency initialActuatorState EmergencyType.LOW_TEMP 60000).fanCirculation = true := by
  decide

/-- Claim C3: the specification states that `stopAll()` unconditionally
drives every output off, bypassing dwell-time checks. The code instead
routes `stopAll` through the dwell-checked setters: with both heaters on
(primary turned on at t = 60000 ms, secondary at t = 120000 ms) and every
dwell interval elapsed, `stopAll` at t = 180000 ms turns the primary heater
off, which resets the shared heater dwell timer and causes the
`setHeater(false, false)` call to be ignored — the secondary heater remains
on after `stopAll` returns. -/
theorem c3_stopAll_not_unconditional :
    (stopAll (setHeater (setHeater initialActuatorState true true 60000) false true 120000)
      180000).heaterSecondary = true := by decide

/-- Claim C4, counterexample: `setLight` performs no dwell-time check, so a
`setLight(false)` issued immediately (0 ms, hence within the 60000 ms
minimum dwell interval) after the prior light transition still changes the
state instead of being a no-op. -/
theorem c4_setLight_not_dwell_limited :
    setLight (setLight initialActuatorState true) false ≠ setLight initialActuatorState true := by
  decide

/-- Claim C4 (amended): a `setHeater`, `setFan` or `setPump` call issued
within the minimum dwell interval of the prior transition recorded for that
output group leaves the entire actuator state unchanged; `setLight` has no
dwell check and takes effect immediately. -/
theorem c4_dwell_noop_amended (s : ActuatorState) (now : Nat) :
    (wsub now s.lastHeaterChange < MIN_CYCLE_TIME_MS → ∀ p t, setHeater s p t now = s) ∧
    (wsub now s.lastFanChange < MIN_CYCLE_TIME_MS → ∀ e t, setFan s e t now = s) ∧
    (wsub now s.lastPumpChange < MIN_CYCLE_TIME_MS → ∀ t, setPump s t now = s) :=
  ⟨fun h p t => setHeater_noop_of_dwell s p t now h,
   fun h e t => setFan_noop_of_dwell s e t now h,
   fun h t => setPump_noop_of_dwell s t now h⟩

/-- Witness for C4: from the reset state at t = 0 every dwell timer reads 0,
so all three dwell-checked setters are no-ops. -/
theorem c4_dwell_noop_witness :
    setHeater initialActuatorState true true 0 = initialActuatorState ∧
    setFan initialActuatorState true true 0 = initialActuatorState ∧
    setPump initialActuatorState true 0 = initialActuatorState :=
  ⟨(c4_dwell_noop_amended initialActuatorState 0).1 (by decide) true true,
   (c4_dwell_noop_amended initialActuatorState 0).2.1 (by decide) true true,
   (c4_dwell_noop_amended initialActuatorState 0).2.2 (by decide) true⟩

/-- Actuator states reachable from the reset state through the public
setters. `stopAll`, `handleEmergency` and `handleWarning` are compositions
of these setters, so every state the firmware can produce is covered. -/
inductive ReachableActuator : ActuatorState → Prop
  | base : ReachableActuator initialActuatorState
  | heater (s : ActuatorState) (p t : Bool) (now : Nat) :
      ReachableActuator s → ReachableActuator (setHeater s p t now)
  | fan (s : ActuatorState) (e t : Bool) (now : Nat) :
      ReachableActuator s → ReachableActuator (setFan s e t now)
  | pump (s : ActuatorState) (t : Bool) (now : Nat) :
      ReachableActuator s → ReachableActuator (setPump s t now)
  | light (s : ActuatorState) (t : Bool) :
      ReachableActuator s → ReachableActuator (setLight s t)

/-- In every reachable state with the pump on, `lastPumpChange` equals
`pumpOnTime`: both are stamped together by the transition that turned the
pump on, and no other operation touches either field. -/
theorem pump_timer_coherent_of_reachable {s : ActuatorState} (hr : ReachableActuator s) :
    s.pumpIrrigation = true → s.lastPumpChange = s.pumpOnTime := by
  induction hr with
  | base => intro h; simp [initialActuatorState] at h
  | heater s p t now _ ih =>
      intro h
      rw [setHeater_lastPumpChange, setHeater_pumpOnTime]
      exact ih (by rwa [setHeater_pumpIrrigation] at h)
  | fan s e t now _ ih =>
      intro h
      rw [setFan_lastPumpChange, setFan_pumpOnTime]
      exact ih (by rwa [setFan_pumpIrrigation] at h)
  | pump s t now _ ih =>
      intro h
      simp only [setPump] at h ⊢
      split_ifs at h ⊢ <;> first | exact ih h | rfl | simp_all
  | light s t _ ih =>
      intro h
      rw [setLight_lastPumpChange, setLight_pumpOnTime]
      exact ih (by rwa [setLight_pumpIrrigation] at h)

/-- Claim C5: a `setPump(true)` request issued while the pump is on and its
continuous on-time already exceeds `MAX_PUMP_RUN_TIME_MS` leaves the pump
off. In every reachable such state the run time equals the age of the last
pump transition, so the dwell guard passes and the run-time ceiling forces
the request to off. -/
theorem c5_pump_max_runtime_forced_off (s : ActuatorState) (now : Nat)
    (hr : ReachableActuator s) (hon : s.pumpIrrigation = true)
    (hrun : MAX_PUMP_RUN_TIME_MS < wsub now s.pumpOnTime) :
    (setPump s true now).pumpIrrigation = false := by
  have hco : s.lastPumpChange = s.pumpOnTime := pump_timer_coherent_of_reachable hr hon
  have hdwell : ¬ wsub now s.lastPumpChange < MIN_CYCLE_TIME_MS := by
    rw [hco]
    unfold MIN_CYCLE_TIME_MS
    unfold MAX_PUMP_RUN_TIME_MS at hrun
    omega
  simp [setPump, hdwell, hon, hrun]

/-- The state with the pump switched on at t = 60000 ms from the reset
state. -/
def c5PumpOnState : ActuatorState := setPump initialActuatorState true 60000

/-- Witness for C5: after 605001 ms of continuous pump run time (ceiling
600000 ms), `setPump(true)` yields pump off. -/
theorem c5_pump_max_runtime_witness :
    c5PumpOnState.pumpIrrigation = true ∧
    MAX_PUMP_RUN_TIME_MS < wsub 665001 c5PumpOnState.pumpOnTime ∧
    (setPump c5PumpOnState true 665001).pumpIrrigation = false :=
  ⟨by decide, by decide,
   c5_pump_max_runtime_forced_off c5PumpOnState 665001
     (ReachableActuator.pump initialActuatorState true 60000 ReachableActuator.base)
     (by decide) (by decide)⟩

/-- A health record whose channel has exceeded the consecutive-error
threshold (taking `MAX_SENSOR_ERRORS = 5`) and is flagged invalid. -/
def c6InvalidHealth : SensorHealth :=
  { isValid := false, lastValidRead := 0, lastValidValue := 0,
    consecutiveErrors := 6, totalReads := 6, totalErrors := 6 }

/-- A fully in-range Modbus response: moisture 50.0 %, soil temperature
20.0 C, EC 1.0 mS/cm, pH 6.50. -/
def c6GoodModbusInput : ModbusInput :=
  { success := true, reg0 := 500, reg1 := 200, reg2 := 1000, reg3 := 650,
    reg4 := 0, reg5 := 0, reg6 := 0 }

/-- A failed SCD-30 read attempt (driver not ready). -/
def c6SCD30FailInput : SCD30Input :=
  { dataReady := false, readOk := false, co2 := 0, temperature := 0, humidity := 0 }

/-- A failed MQ135 read attempt after preheat. -/
def c6MQ135FailInput : MQ135Input :=
  { preheatElapsed := true, valueOk := false, ppm := 0 }

/-- A still-valid health record sitting exactly at the threshold, whose next
error trips the invalid flag. -/
def c6TrippingHealth : SensorHealth :=
  { isValid := true, lastValidRead := 0, lastValidValue := 0,
    consecutiveErrors := 5, totalReads := 5, totalErrors := 5 }

/-- A failed Modbus read attempt (transaction error). -/
def c6ModbusFailInput : ModbusInput :=
  { success := false, reg0 := 0, reg1 := 0, reg2 := 0, reg3 := 0,
    reg4 := 0, reg5 := 0, reg6 := 0 }

/-- The concrete Modbus response `c6GoodModbusInput` passes every sanity
check. -/
theorem c6GoodModbusInput_valid : modbusReadValid c6GoodModbusInput := by
  unfold modbusReadValid c6GoodModbusInput
  norm_num

/-- Claim C6, counterexample: the Modbus channel, flagged invalid after
exceeding the error threshold, is silently restored to valid by the next
fully in-range successful read (`modbusHealth.isValid = true`,
sensor_manager.cpp line 345) — no re-initialization involved. -/
theorem c6_modbus_silent_revalidation :
    c6InvalidHealth.isValid = false ∧ 5 < c6InvalidHealth.consecutiveErrors ∧
    (readModbusSensor 5 c6InvalidHealth c6GoodModbusInput 1000).isValid = true := by
  refine ⟨rfl, by norm_num [c6InvalidHealth], ?_⟩
  simp [readModbusSensor, c6GoodModbusInput_valid]

/-- Claim C6 (amended): exceeding the consecutive-error threshold on a
failing read trips the invalid flag on every channel — SCD-30 (part 3),
MQ135 after preheat (part 4) and Modbus (part 5); once flagged invalid, the
SCD-30 channel stays invalid under every subsequent read (reads are
skipped, part 1), and the MQ135 channel stays invalid as well (no branch of
its read sets the flag, part 2); but the Modbus channel is silently
restored to valid by any subsequent fully in-range successful read,
without re-initialization (part 6). -/
theorem c6_isValid_latch_amended (m : Nat) :
    (∀ (h : SensorHealth) (inp : SCD30Input) (now : Nat),
       h.isValid = false → (readSCD30 m h inp now).isValid = false) ∧
    (∀ (p : Bool) (h : SensorHealth) (inp : MQ135Input) (now : Nat),
       h.isValid = false → ((readMQ135 m p h inp now).2).isValid = false) ∧
    (∀ (h : SensorHealth) (inp : SCD30Input) (now : Nat),
       h.isValid = true → ¬ scd30ReadValid inp → m < (h.consecutiveErrors + 1) % 256 →
       (readSCD30 m h inp now).isValid = false) ∧
    (∀ (h : SensorHealth) (inp : MQ135Input) (now : Nat),
       inp.valueOk = false → m < (h.consecutiveErrors + 1) % 256 →
       ((readMQ135 m true h inp now).2).isValid = false) ∧
    (∀ (h : SensorHealth) (inp : ModbusInput) (now : Nat),
       ¬ modbusReadValid inp → m < (h.consecutiveErrors + 1) % 256 →
       (readModbusSensor m h inp now).isValid = false) ∧
    (∀ (h : SensorHealth) (inp : ModbusInput) (now : Nat),
       h.isValid = false → modbusReadValid inp → (readModbusSensor m h inp now).isValid = true) := by
  refine ⟨?_, ?_, ?_, ?_, ?_, ?_⟩
  · intro h inp now hinv
    simp [readSCD30, hinv]
  · intro p h inp now hinv
    simp only [readMQ135]
    split_ifs <;> simp [hinv]
  · intro h inp now hval hnv hlt
    simp [readSCD30, hval, hnv, hlt]
  · intro h inp now hnv hlt
    simp [readMQ135, hnv, hlt]
  · intro h inp now hnv hlt
    simp [readModbusSensor, hnv, hlt]
  · intro h inp now hinv hv
    simp [readModbusSensor, hv]

/-- Witness for C6: concrete reads with threshold 5 exercising all six
parts of the amended latch statement. -/
theorem c6_isValid_latch_witness :
    (readSCD30 5 c6InvalidHealth c6SCD30FailInput 7).isValid = false ∧
    ((readMQ135 5 true c6InvalidHealth c6MQ135FailInput 7).2).isValid = false ∧
    (readSCD30 5 c6TrippingHealth c6SCD30FailInput 7).isValid = false ∧
    ((readMQ135 5 true c6TrippingHealth c6MQ135FailInput 7).2).isValid = false ∧
    (readModbusSensor 5 c6TrippingHealth c6ModbusFailInput 7).isValid = false ∧
    (readModbusSensor 5 c6InvalidHealth c6GoodModbusInput 7).isValid = true :=
  ⟨(c6_isValid_latch_amended 5).1 c6InvalidHealth c6SCD30FailInput 7 (by decide),
   (c6_isValid_latch_amended 5).2.1 true c6InvalidHealth c6MQ135FailInput 7 (by decide),
   (c6_isValid_latch_amended 5).2.2.1 c6TrippingHealth c6SCD30FailInput 7
     (by decide) (by decide) (by decide),
   (c6_isValid_latch_amended 5).2.2.2.1 c6TrippingHealth c6MQ135FailInput 7
     (by decide) (by decide),
   (c6_isValid_latch_amended 5).2.2.2.2.1 c6TrippingHealth c6ModbusFailInput 7
     (by decide) (by decide),
   (c6_isValid_latch_amended 5).2.2.2.2.2 c6InvalidHealth c6GoodModbusInput 7
     (by decide) c6GoodModbusInput_valid⟩

/-- Claim C7: in `STATE_SENSOR_INIT` a successful initialization (plausible
air temperature) advances to `STATE_NETWORK_CONNECT` regardless of the fail
count; with failing initialization the controller retries on failures 1, 2
and 3 and transitions to `STATE_SAFE_MODE` on the fourth consecutive
failure (`bootFailCount > 3`). -/
theorem c7_sensor_init_retry_bound :
    (∀ (c : Nat) (t : ℚ), -50 < t → t < 60 →
       stateSensorInit c t = (c, SystemState.STATE_NETWORK_CONNECT)) ∧
    (∀ t : ℚ, ¬ (-50 < t ∧ t < 60) →
       (∀ k, k ≤ 3 → sensorInitIter t k = (k, SystemState.STATE_SENSOR_INIT)) ∧
       sensorInitIter t 4 = (4, SystemState.STATE_SAFE_MODE)) := by
  constructor
  · intro c t h1 h2
    simp [stateSensorInit, h1, h2]
  · intro t ht
    have hstep : ∀ c : Nat, stateSensorInit c t =
        (if 3 < (c + 1) % 256 then ((c + 1) % 256, SystemState.STATE_SAFE_MODE)
         else ((c + 1) % 256, SystemState.STATE_SENSOR_INIT)) := by
      intro c
      simp [stateSensorInit, ht]
    constructor
    · intro k hk
      interval_cases k <;> simp [sensorInitIter, hstep]
    · simp [sensorInitIter, hstep]

/-- Witness for C7: a sensor reporting 20 C advances immediately; a sensor
stuck at -60 C (out of the plausible window) is retried three times and
forces safe mode on the fourth failure. -/
theorem c7_sensor_init_retry_witness :
    stateSensorInit 0 20 = (0, SystemState.STATE_NETWORK_CONNECT) ∧
    sensorInitIter (-60) 3 = (3, SystemState.STATE_SENSOR_INIT) ∧
    sensorInitIter (-60) 4 = (4, SystemState.STATE_SAFE_MODE) :=
  ⟨c7_sensor_init_retry_bound.1 0 20 (by norm_num) (by norm_num),
   (c7_sensor_init_retry_bound.2 (-60) (by norm_num)).1 3 (by norm_num),
   (c7_sensor_init_retry_bound.2 (-60) (by norm_num)).2⟩

/-- Claim C8: with the SD card unavailable (the only reachable
configuration: `setup()` forces `sdCardAvailable = false` and
`initializeSDCard()` is never called), inserting into a full offline buffer
evicts exactly the oldest record and appends the new one; concretely,
inserting records 1..101 into an empty buffer of capacity 100 leaves
records 2..101 — the 101st insertion evicts record #1. -/
theorem c8_buffer_fifo_eviction :
    (∀ (cap : Nat) (buf : List SensorReading) (d : SensorReading),
       0 < cap → buf.length = cap →
       bufferSensorData cap false buf d = buf.drop 1 ++ [d]) ∧
    ((List.range 101).foldl
        (fun b i => bufferSensorData MAX_BUFFERED_READINGS false b (mkRec (i + 1))) []
      = (List.range MAX_BUFFERED_READINGS).map (fun i => mkRec (i + 2))) := by
  constructor
  · intro cap buf d hcap hlen
    have hle : cap ≤ buf.length := le_of_eq hlen.symm
    have h2 : (buf.drop 1).take (cap - 1) = buf.drop 1 :=
      List.take_of_length_le (by rw [List.length_drop, hlen])
    have h3 : (buf.drop 1).length < cap := by
      rw [List.length_drop, hlen]
      omega
    simp only [bufferSensorData]
    rw [if_pos (⟨trivial, hle⟩ : True ∧ cap ≤ buf.length), h2, if_pos h3]
  · set_option maxRecDepth 8000 in decide

/-- Witness for C8: a capacity-2 buffer holding records 1 and 2 receives
record 3; record 1 is evicted. -/
theorem c8_buffer_fifo_witness :
    bufferSensorData 2 false [mkRec 1, mkRec 2] (mkRec 3) = [mkRec 2, mkRec 3] :=
  c8_buffer_fifo_eviction.1 2 [mkRec 1, mkRec 2] (mkRec 3) (by decide) rfl

/-- A buffer file holding one undelivered record. -/
def c9BufferFile : List SensorReading := [mkRec 1]

/-- Claim C9: the specification states that a flush removes each record only
after confirmed delivery and that an interrupted flush leaves the
undelivered remainder intact. The code violates this: with the SD card
present and a buffer file holding one undelivered record,
`syncBufferedData()` reads and counts the lines, delivers nothing (the
Firebase upload is an unimplemented TODO, main.ino line 602), and still
removes the buffer file (line 610) — the record is lost without ever being
delivered. -/
theorem c9_sync_discards_undelivered :
    syncBufferedData true (some c9BufferFile) = (none, []) := rfl

/-- If a `setHeater(primary=true)` call actually transitioned the primary
heater, it stamped the shared heater dwell timer `lastHeaterChange` with
`now`. -/
theorem setHeater_last_of_primary_change (s : ActuatorState) (t : Bool) (now : Nat)
    (h : (setHeater s true t now).heaterPrimary ≠ s.heaterPrimary) :
    (setHeater s true t now).lastHeaterChange = now := by
  simp only [setHeater] at h ⊢
  split_ifs at h ⊢ <;> simp_all

/-- If a `setFan(exhaust=true)` call actually transitioned the exhaust fan,
it stamped the shared fan dwell timer `lastFanChange` with `now`. -/
theorem setFan_last_of_exhaust_change (s : ActuatorState) (t : Bool) (now : Nat)
    (h : (setFan s true t now).fanExhaust ≠ s.fanExhaust) :
    (setFan s true t now).lastFanChange = now := by
  simp only [setFan] at h ⊢
  split_ifs at h ⊢ <;> simp_all [setHeater_fanExhaust, setHeater_lastFanChange]

/-- Claim C10: the two heaters share `lastHeaterChange` and the two fans
share `lastFanChange`. A transition of the primary heater (or the exhaust
fan) therefore makes any command to the secondary heater (or the
circulation fan) within the minimum dwell interval a no-op, even though
that other output did not itself transition recently. -/
theorem c10_shared_dwell_timestamps (s : ActuatorState) (t t2 : Bool) (now now2 : Nat) :
    ((setHeater s true t now).heaterPrimary ≠ s.heaterPrimary →
       wsub now2 now < MIN_CYCLE_TIME_MS →
       setHeater (setHeater s true t now) false t2 now2 = setHeater s true t now) ∧
    ((setFan s true t now).fanExhaust ≠ s.fanExhaust →
       wsub now2 now < MIN_CYCLE_TIME_MS →
       setFan (setFan s true t now) false t2 now2 = setFan s true t now) := by
  constructor
  · intro hch hd
    apply setHeater_noop_of_dwell
    rw [setHeater_last_of_primary_change s t now hch]
    exact hd
  · intro hch hd
    apply setFan_noop_of_dwell
    rw [setFan_last_of_exhaust_change s t now hch]
    exact hd

/-- Witness for C10: turning the primary heater (the exhaust fan) on at
t = 60000 ms makes the command to the secondary heater (the circulation
fan) at t = 60001 ms a no-op. -/
theorem c10_shared_dwell_witness :
    setHeater (setHeater initialActuatorState true true 60000) false true 60001
      = setHeater initialActuatorState true true 60000 ∧
    setFan (setFan initialActuatorState true true 60000) false true 60001
      = setFan initialActuatorState true true 60000 :=
  ⟨(c10_shared_dwell_timestamps initialActuatorState true true 60000 60001).1
     (by decide) (by decide),
   (c10_shared_dwell_timestamps initialActuatorState true true 60000 60001).2
     (by decide) (by decide)⟩
